import Mathlib

/-!
Verification of the SMS recruiting bot's conversation state/outcome engine.

Shallow embedding of the conversation-logic module (`app/services/llm copy.py`,
the latest iteration of `app/services/llm.py`) together with the finalize/close
step of `app/main.py` / `app/routers/chat.py`.

Strings are modelled as `List Char` (Python `str` indexing and `len` count code
points, exactly as `List Char` does).  Python regexes used by the module are
embedded with a small backtracking matching engine whose alternative order
mirrors Python's leftmost / first-alternative / greedy preference.  The hosted
language model is an external fallible capability and is modelled as an oracle
(`Oracle`): the parsed JSON object of the analyzer call and the raw text of the
generator call, each of which may instead raise (`Except.error`).
-/

abbrev Str := List Char

/-- Python `str.lower()` restricted to the alphabet the module manipulates
(ASCII plus the Lithuanian diacritic letters). -/
def lowerChar (c : Char) : Char :=
  if c = 'Ą' then 'ą' else if c = 'Č' then 'č' else if c = 'Ę' then 'ę'
  else if c = 'Ė' then 'ė' else if c = 'Į' then 'į' else if c = 'Š' then 'š'
  else if c = 'Ų' then 'ų' else if c = 'Ū' then 'ū' else if c = 'Ž' then 'ž'
  else c.toLower

def lowerStr (s : Str) : Str := s.map lowerChar

/-- Python `\s` (the whitespace characters occurring in this code base). -/
def isPyWs (c : Char) : Bool :=
  c = ' ' || c = '\t' || c = '\n' || c = '\x0d' || c = '\x0b' || c = '\x0c'

/-- Python `\w` with `re.UNICODE`, restricted to the alphabet in use:
ASCII alphanumerics, underscore, and Lithuanian diacritic letters. -/
def isWordChar (c : Char) : Bool :=
  c.isAlphanum || c = '_' ||
  c = 'ą' || c = 'č' || c = 'ę' || c = 'ė' || c = 'į' || c = 'š' || c = 'ų' ||
  c = 'ū' || c = 'ž' ||
  c = 'Ą' || c = 'Č' || c = 'Ę' || c = 'Ė' || c = 'Į' || c = 'Š' || c = 'Ų' ||
  c = 'Ū' || c = 'Ž'

def isDigitChar (c : Char) : Bool := '0' ≤ c && c ≤ '9'

def stripWs (s : Str) : Str :=
  ((s.dropWhile isPyWs).reverse.dropWhile isPyWs).reverse

def rstripWs (s : Str) : Str := (s.reverse.dropWhile isPyWs).reverse

/-- Python `str.strip(chars)`. -/
def stripChars (cs : Str) (s : Str) : Str :=
  ((s.dropWhile (cs.contains ·)).reverse.dropWhile (cs.contains ·)).reverse

/-- Python `re.sub(r"\s+", " ", s)`: each maximal whitespace run becomes one space. -/
def collapseWs : Str → Str
  | [] => []
  | [c] => [if isPyWs c then ' ' else c]
  | c :: d :: rest =>
    if isPyWs c && isPyWs d then collapseWs (d :: rest)
    else (if isPyWs c then ' ' else c) :: collapseWs (d :: rest)

/-- Python `needle in hay` on strings. -/
def containsSub (needle : Str) : Str → Bool
  | [] => needle.isEmpty
  | c :: rest => needle.isPrefixOf (c :: rest) || containsSub needle rest

def countWhile (f : Char → Bool) : Str → Nat
  | [] => 0
  | c :: t => if f c then countWhile f t + 1 else 0

def joinSpace : List Str → Str := List.intercalate [' ']

/-! ## A tiny backtracking matching engine for the module's regexes

A match state is the character just before the current position (for `\b`)
plus the remaining input.  A pattern maps a state to the list of possible
successor states, ordered by Python's preference (leftmost alternative first,
greedy repetition longest first). -/

abbrev Rem := Option Char × Str

abbrev Rx := Rem → List Rem

def advRem (r : Rem) (n : Nat) : Rem :=
  (match (r.2.take n).getLast? with
   | some c => some c
   | none => r.1,
   r.2.drop n)

/-- Literal string (case-sensitive). -/
def rxLit (w : String) : Rx := fun r =>
  if w.data.isPrefixOf r.2 then [advRem r w.data.length] else []

/-- Literal string, case-insensitive (pattern given lowercase). -/
def rxLitCI (w : String) : Rx := fun r =>
  if lowerStr (r.2.take w.data.length) = w.data then [advRem r w.data.length] else []

def rxEps : Rx := fun r => [r]

def rxSeq (p q : Rx) : Rx := fun r => (p r).flatMap q

def rxAlt (p q : Rx) : Rx := fun r => p r ++ q r

def rxAlts (ps : List Rx) : Rx := fun r => ps.flatMap (fun p => p r)

def rxCat (ps : List Rx) : Rx := fun r => ps.foldl (fun acc p => acc.flatMap p) [r]

/-- `(p)?`, greedy. -/
def rxOpt (p : Rx) : Rx := fun r => p r ++ [r]

/-- Single character of a class. -/
def rxCls (f : Char → Bool) : Rx := fun r =>
  match r.2 with
  | [] => []
  | c :: t => if f c then [(some c, t)] else []

/-- `f{lo,hi}` for a character class, greedy (longest first). -/
def rxClsRep (f : Char → Bool) (lo hi : Nat) : Rx := fun r =>
  let k := min hi (countWhile f r.2)
  ((List.range (k + 1)).reverse.filter (lo ≤ ·)).map (advRem r)

def rxClsStar (f : Char → Bool) : Rx := fun r => rxClsRep f 0 r.2.length r

def rxClsPlus (f : Char → Bool) : Rx := fun r => rxClsRep f 1 r.2.length r

/-- `f+?` for a character class, lazy (shortest first). -/
def rxClsPlusLazy (f : Char → Bool) : Rx := fun r =>
  let k := countWhile f r.2
  ((List.range (k + 1)).filter (1 ≤ ·)).map (advRem r)

def isWordO : Option Char → Bool
  | some c => isWordChar c
  | none => false

/-- `\b`: zero-width word-boundary assertion. -/
def rxB : Rx := fun r =>
  if isWordO r.1 != isWordO r.2.head? then [r] else []

/-- Repetition `p*` with explicit fuel, greedy, each step must consume input. -/
def rxRepFuel (p : Rx) : Nat → Rx
  | 0 => rxEps
  | n + 1 => fun r =>
    (p r).flatMap (fun r' =>
      if r'.2.length < r.2.length then rxRepFuel p n r' ++ [r'] else [r']) ++ [r]

def rxSearchAux (p : Rx) : Option Char → Str → Bool
  | prev, [] => !(p (prev, [])).isEmpty
  | prev, c :: t => !(p (prev, c :: t)).isEmpty || rxSearchAux p (some c) t

/-- Python `re.search(p, s) is not None`. -/
def rxTest (p : Rx) (s : Str) : Bool := rxSearchAux p none s

/-- `re.search` for a pattern compiled with `re.I` (pattern written lowercase). -/
def rxTestCI (p : Rx) (s : Str) : Bool := rxTest p (lowerStr s)

/-- Leftmost match position and length (Python preference order). -/
def rxFindPosAux (p : Rx) : Nat → Option Char → Str → Option (Nat × Nat)
  | i, prev, [] =>
    match (p (prev, [])).head? with
    | some _ => some (i, 0)
    | none => none
  | i, prev, c :: t =>
    match (p (prev, c :: t)).head? with
    | some r' => some (i, (c :: t).length - r'.2.length)
    | none => rxFindPosAux p (i + 1) (some c) t

def rxFindPos (p : Rx) (s : Str) : Option (Nat × Nat) := rxFindPosAux p 0 none s

/-- Python `re.sub(p, repl, s)` (replace all, leftmost, non-overlapping);
`fuel` bounds the number of replacements. -/
def rxSubFuel (p : Rx) (repl : Str) : Nat → Option Char → Str → Str
  | 0, _, s => s
  | fuel + 1, prev, s =>
    match rxFindPosAux p 0 prev s with
    | none => s
    | some (i, n) =>
      if n = 0 then s
      else
        let pre := s.take i
        let m := (s.drop i).take n
        let post := s.drop (i + n)
        pre ++ repl ++
          rxSubFuel p repl fuel
            (match m.getLast? with
             | some c => some c
             | none => (s.take i).getLast?) post

def rxSubAll (p : Rx) (repl : Str) (s : Str) : Str :=
  rxSubFuel p repl (s.length + 1) none s

/-! ## Data model

A thread's message history as the reply generator sees it (`_thread_history`):
rows of the external message store mapped to `role`/`content` pairs.  The
message store itself is an external collaborator, so histories are parameters
here. -/

structure Msg where
  role : Str
  content : Str
deriving DecidableEq, Repr

def mAsst (s : String) : Msg := ⟨"assistant".data, s.data⟩

def mUser (s : String) : Msg := ⟨"user".data, s.data⟩

/-! ## Constants of `app/services/llm copy.py` (canonical closing templates) -/

def VALUE_LINE : Str :=
  "Siūlome lanksčius grafikus, greitą pradžią ir paprastą procesą įsidarbinant.".data

def CLOSE_TX : Str := "Perduosiu kolegai – paskambins dėl detalių.".data

def YEAR_MAX : Int := 70

def HUMAN_CLOSE : Str := "Ačiū už Jūsų laiką — užsirašiau. ".data ++ CLOSE_TX

def TROLL_CLOSE : Str := "Palikime čia. Jei rimtai domins darbas, parašykite.".data

def DNC_CLOSE : Str := "Supratau — daugiau nerašysime. Gražios dienos!".data

def FUTURE_CLOSE : Str := "Puiku — užsirašysiu ateičiai. ".data ++ VALUE_LINE

/-- `MODEL`: `os.getenv("LLM_REPLY_MODEL", os.getenv("LLM_MODEL", "gpt-4o-mini"))`
at its default (no environment override). -/
def MODEL : Str := "gpt-4o-mini".data

/-! ## `_norm`: robust normalisation used by the close detectors -/

def dashChar (c : Char) : Char :=
  if c = '–' || c = '—' || c = '−' || c = '-' then '-' else c

def diacriticChar (c : Char) : Char :=
  if c = 'ė' then 'e' else if c = 'ą' then 'a' else if c = 'č' then 'c'
  else if c = 'ę' then 'e' else if c = 'į' then 'i' else if c = 'š' then 's'
  else if c = 'ų' then 'u' else if c = 'ū' then 'u' else if c = 'ž' then 'z'
  else c

def isDotBangWs (c : Char) : Bool := c = '.' || c = '!' || isPyWs c

def norm (s : Str) : Str :=
  let s1 := (lowerStr s).map dashChar
  let s2 := stripWs (collapseWs s1)
  let s3 := (s2.reverse.dropWhile isDotBangWs).reverse
  s3.map diacriticChar

/-! ## History helpers -/

def last_assistant_text (h : List Msg) : Str :=
  match h.reverse.find? (fun m => m.role = "assistant".data) with
  | some m => m.content
  | none => []

def assistant_has (h : List Msg) (needle : Str) : Bool :=
  h.any (fun m => m.role = "assistant".data &&
    containsSub (lowerStr needle) (lowerStr m.content))

def identity_already_used (h : List Msg) : Bool :=
  h.any (fun m => m.role = "assistant".data &&
    containsSub "valandinis.lt".data (lowerStr m.content))

def num_user_msgs (h : List Msg) : Nat :=
  (h.filter (fun m => m.role = "user".data)).length

def is_first_user_reply_after_opener (h : List Msg) : Bool :=
  num_user_msgs h = 1 && h.any (fun m => m.role = "assistant".data)

/-! ## `CLOSE_PATTERNS` and the close-type detectors -/

def anyChar (c : Char) : Bool := c != '\n'

def ws1 : Rx := rxClsPlus isPyWs

def wss : Rx := rxClsStar isPyWs

/-- `\bperduos(iu|iu)\s+koleg\w+.*\bpaskambins\b` -/
def closePat1 : Rx :=
  rxCat [rxB, rxLit "perduos", rxAlt (rxLit "iu") (rxLit "iu"), ws1,
    rxLit "koleg", rxClsPlus isWordChar, rxClsStar anyChar, rxB,
    rxLit "paskambins", rxB]

/-- `\baci(u|u)\s+uz\s+(jusu\s+)?laika.*perduos(iu|iu)\s+koleg\w+` -/
def closePat2 : Rx :=
  rxCat [rxB, rxLit "aci", rxAlt (rxLit "u") (rxLit "u"), ws1, rxLit "uz", ws1,
    rxOpt (rxCat [rxLit "jusu", ws1]), rxLit "laika", rxClsStar anyChar,
    rxLit "perduos", rxAlt (rxLit "iu") (rxLit "iu"), ws1, rxLit "koleg",
    rxClsPlus isWordChar]

/-- `\bsupratau\s*-\s*daugiau\s+nerasysime\b` -/
def closePat3 : Rx :=
  rxCat [rxB, rxLit "supratau", wss, rxLit "-", wss, rxLit "daugiau", ws1,
    rxLit "nerasysime", rxB]

/-- `\buzsirasi(si(u|u)|au)\s+ateiciai\b` -/
def closePat4 : Rx :=
  rxCat [rxB, rxLit "uzsirasi",
    rxAlt (rxCat [rxLit "si", rxAlt (rxLit "u") (rxLit "u")]) (rxLit "au"),
    ws1, rxLit "ateiciai", rxB]

/-- `\bpalikime\s+cia\b` -/
def closePat5 : Rx := rxCat [rxB, rxLit "palikime", ws1, rxLit "cia", rxB]

def CLOSE_PATTERNS : List Rx := [closePat1, closePat2, closePat3, closePat4, closePat5]

/-- `_assistant_last_was_close` -/
def assistant_last_was_close (h : List Msg) : Bool :=
  let last := norm (last_assistant_text h)
  if last.isEmpty then false
  else if (containsSub "perduosiu koleg".data last && containsSub "paskambins".data last) ||
          containsSub "daugiau nerasysime".data last ||
          (containsSub "uzsirasi".data last && containsSub "ateiciai".data last) ||
          containsSub "palikime cia".data last then true
  else CLOSE_PATTERNS.any (fun rx => rxTest rx last)

/-- `_last_close_type` applied to a given last-outbound text (the source
computes it from `_last_assistant_text(history)`; see `last_close_type`). -/
def last_close_type_of (t : Str) : Option Str :=
  let last := norm t
  if last.isEmpty then none
  else if containsSub (norm HUMAN_CLOSE) last || containsSub (norm CLOSE_TX) last ||
          (containsSub "perduosiu koleg".data last && containsSub "paskambins".data last) then
    some "human".data
  else if containsSub (norm FUTURE_CLOSE) last ||
          (containsSub "uzsirasi".data last && containsSub "ateiciai".data last) then
    some "future".data
  else if containsSub (norm DNC_CLOSE) last || containsSub "daugiau nerasysime".data last then
    some "dnc".data
  else if containsSub (norm TROLL_CLOSE) last || containsSub "palikime cia".data last then
    some "troll".data
  else if CLOSE_PATTERNS.any (fun rx => rxTest rx last) then
    if containsSub "daugiau nerasysime".data last then some "dnc".data
    else if containsSub "ateiciai".data last then some "future".data
    else if containsSub "paskambins".data last then some "human".data
    else some "human".data
  else none

def last_close_type (h : List Msg) : Option Str :=
  last_close_type_of (last_assistant_text h)

/-! ## Deterministic close rules (`CLOSE_RULES`, `_apply_close_rules`)

All rule regexes are compiled with `re.I`; they are therefore embedded in
lowercase and searched on the lowercased text (`rxTestCI`). -/

/-- DNC / hard-stop pattern (the `dnc` rule of `CLOSE_RULES`; `_HARD_STOP_RX`
is the same pattern repeated verbatim in the source). -/
def dncRx : Rx :=
  rxAlts [
    rxCat [rxB,
      rxAlt (rxLit "stop")
        (rxCat [rxLit "n", rxOpt (rxLit "e"), rxLit "be",
          rxAlts [rxCat [rxLit "trukdyk", rxOpt (rxLit "it")],
                  rxCat [rxLit "rašyk", rxOpt (rxLit "it")],
                  rxCat [rxLit "siųsk", rxOpt (rxLit "it")],
                  rxCat [rxLit "junk", rxOpt (rxLit "it")]]]),
      rxB],
    rxCat [rxB,
      rxAlts [rxLit "atsisakau", rxLit "unsubscribe",
              rxCat [rxLit "nebesusisiek", rxOpt (rxLit "it")],
              rxCat [rxLit "nenoriu", ws1, rxLit "gauti"]],
      rxB],
    rxCat [rxB,
      rxAlts [rxCat [rxLit "ištrink", rxOpt (rxLit "it"), ws1, rxLit "mano",
                     ws1, rxLit "numerį"],
              rxCat [rxLit "netrukdyk", rxOpt (rxLit "it")]],
      rxB]]

/-- `future` rule pattern. -/
def futureRx : Rx :=
  rxCat [rxB,
    rxAlts [rxLit "ateityje", rxLit "vėliau",
            rxCat [rxLit "gal", wss, rxAlt (rxLit "vėliau") (rxLit "ateityje")],
            rxCat [rxLit "kai", ws1, rxLit "bus", ws1, rxLit "laisviau"],
            rxCat [rxLit "dabar", ws1, rxLit "ne", rxOpt (rxLit ","), wss, rxLit "bet"],
            rxCat [rxLit "kol", ws1, rxLit "kas", ws1, rxLit "ne"]],
    rxB]

/-- `call` rule pattern. -/
def callRx : Rx :=
  rxAlt
    (rxCat [rxB,
      rxAlts [rxCat [rxLit "skambink", rxOpt (rxLit "it")],
              rxCat [rxLit "paskambink", rxOpt (rxLit "it")],
              rxCat [rxLit "galite", ws1, rxLit "paskambinti"],
              rxLit "paskambinsiu", rxLit "susiskambinkim"],
      rxB])
    (rxCat [rxB,
      rxAlts [rxCat [rxLit "duokit", ws1, rxLit "numerį"],
              rxCat [rxLit "duok", ws1, rxLit "nr"],
              rxCat [rxLit "perduok", ws1, rxLit "kolegai"]],
      rxB])

def isNuoCls (c : Char) : Bool := isWordChar c || c = '-' || c = '.'

/-- `accept` rule pattern. -/
def acceptRx : Rx :=
  rxAlt
    (rxCat [rxB,
      rxAlts [rxLit "taip", rxLit "jo", rxLit "ok", rxLit "tinka",
              rxLit "domina", rxLit "gerai", rxLit "priimu", rxLit "galima"],
      rxB])
    (rxCat [rxB,
      rxAlts [rxCat [rxLit "galiu", ws1, rxLit "dirbti"],
              rxCat [rxLit "esu", ws1, rxLit "laisvas"],
              rxCat [rxLit "pradėti", ws1, rxLit "galiu"],
              rxCat [rxLit "nuo", ws1, rxClsPlus isNuoCls]],
      rxB])

/-- `wrong` rule pattern. -/
def wrongRx : Rx :=
  rxAlt
    (rxCat [rxB,
      rxAlts [rxCat [rxLit "ne", wss, rxLit "tas", wss, rxLit "numeris"],
              rxCat [rxLit "neteisingas", wss, rxLit "numeris"],
              rxCat [rxLit "čia", wss, rxLit "ne", wss, rxLit "jis"],
              rxLit "apsirikot"],
      rxB])
    (rxCat [rxB,
      rxAlts [rxCat [rxLit "nesi", rxAlt (rxLit "u") rxEps, rxLit " aš", ws1,
                     rxClsPlusLazy isWordChar, rxLit "ikas"],
              rxCat [rxLit "ne", wss, rxLit "elektrikas"],
              rxCat [rxLit "ne", wss, rxLit "ta", wss, rxLit "specialybė"]],
      rxB])

/-- `TROLL_RX`. -/
def trollRx : Rx :=
  rxCat [rxB,
    rxAlts [rxLit "šūdas", rxLit "byb", rxLit "bybis", rxLit "pizd", rxLit "pyzd",
            rxLit "nx", rxLit "nahui", rxLit "nahuy",
            rxCat [rxLit "debil", rxOpt (rxLit "a"), rxOpt (rxLit "s")],
            rxCat [rxLit "idiota", rxOpt (rxLit "s")],
            rxCat [rxLit "locha", rxOpt (rxLit "s")],
            rxCat [rxLit "laucha", rxOpt (rxLit "s")],
            rxLit "kvailys", rxLit "durnius",
            rxCat [rxLit "eik", ws1, rxLit "na", rxAlt (rxLit "ch") (rxLit "x")],
            rxLit "fuck", rxCat [rxLit "f", rxClsPlus (· = '*'), rxLit "k"],
            rxLit "wtf", rxLit "bitch", rxLit "asshole"],
    rxB]

def CALL_CLOSE : Str := "Puiku — perduosiu kolegai, jis jums paskambins.".data

def WRONG_CLOSE : Str :=
  "Atsiprašome už trukdymą — patikslinsime kontaktus. Daugiau nerašysime.".data

/-- `_apply_close_rules`: the `CLOSE_RULES` list is scanned in order and the
first matching rule's message is returned. -/
def apply_close_rules (t : Str) : Option Str :=
  if rxTestCI dncRx t then some DNC_CLOSE
  else if rxTestCI futureRx t then some FUTURE_CLOSE
  else if rxTestCI callRx t then some CALL_CLOSE
  else if rxTestCI acceptRx t then some HUMAN_CLOSE
  else if rxTestCI wrongRx t then some WRONG_CLOSE
  else if rxTestCI trollRx t then some TROLL_CLOSE
  else none

/-- `_is_hard_stop` (the DNC pattern repeated). -/
def is_hard_stop (t : Str) : Bool := rxTestCI dncRx t

/-- Robot-check pattern `\b(robot|bot|dirbtin|ai)\b`. -/
def robotRx : Rx :=
  rxCat [rxB, rxAlts [rxLit "robot", rxLit "bot", rxLit "dirbtin", rxLit "ai"], rxB]

/-! ## Lightweight extractors -/

/-- `_YEARS_PAT = \b([0-9]{1,3})\s*(m\.|metai|metu|metus)\b` -/
def yearsRx : Rx :=
  rxCat [rxB, rxClsRep isDigitChar 1 3, wss,
    rxAlts [rxLit "m.", rxLit "metai", rxLit "metu", rxLit "metus"], rxB]

def isEe (c : Char) : Bool := c = 'e' || c = 'ė'

/-- `_MONTHS_PAT = \b([0-9]{1,3})\s*(m[eė]n\.?|m[eė]nes(?:iai|ius|i|į)?)\b` -/
def monthsRx : Rx :=
  rxCat [rxB, rxClsRep isDigitChar 1 3, wss,
    rxAlt (rxCat [rxLit "m", rxCls isEe, rxLit "n", rxOpt (rxLit ".")])
          (rxCat [rxLit "m", rxCls isEe, rxLit "nes",
                  rxOpt (rxAlts [rxLit "iai", rxLit "ius", rxLit "i", rxLit "į"])]),
    rxB]

/-- `_WEEKS_PAT = \b([0-9]{1,3})\s*(sav(?:ait[ėe]s?)?)\b` -/
def weeksRx : Rx :=
  rxCat [rxB, rxClsRep isDigitChar 1 3, wss,
    rxLit "sav",
    rxOpt (rxCat [rxLit "ait", rxCls (fun c => c = 'ė' || c = 'e'), rxOpt (rxLit "s")]),
    rxB]

/-- `_DAYS_PAT = \b([0-9]{1,3})\s*(dien(?:a|os)?)\b` -/
def daysRx : Rx :=
  rxCat [rxB, rxClsRep isDigitChar 1 3, wss,
    rxLit "dien", rxOpt (rxAlt (rxLit "a") (rxLit "os")), rxB]

/-- `_AVAIL_PAT`. -/
def availRx : Rx :=
  rxCat [rxB,
    rxAlts [rxCat [rxLit "nuo", ws1, rxClsPlus isNuoCls],
            rxLit "rytoj", rxLit "šiandien",
            rxCat [rxLit "kit", rxAlt (rxLit "a") (rxLit "ą"), ws1, rxLit "savait",
                   rxAlt (rxLit "ė") (rxLit "e")],
            rxCat [rxLit "nuo", ws1, rxLit "kitos", ws1, rxLit "savait",
                   rxAlt (rxLit "ė") (rxLit "e")],
            rxLit "iškart"],
    rxB]

/-- `AGE_Q_PAT`. -/
def ageQRx : Rx :=
  rxCat [rxB,
    rxAlts [rxCat [rxLit "nuo", ws1, rxLit "kiek", ws1, rxLit "met",
                   rxAlt (rxLit "ų") (rxLit "u")],
            rxCat [rxLit "kiek", ws1, rxLit "met", rxAlt (rxLit "ų") (rxLit "u"),
                   ws1, rxLit "galima", ws1, rxLit "dirbti"],
            rxCat [rxLit "priimate", ws1, rxLit "nuo", ws1, rxLit "kiek"],
            rxCat [rxLit "įdarbinate", ws1, rxLit "nuo"]],
    rxB]

/-- `AGE_VAL_PAT = \b(man\s+)?([0-9]{1,2})\s*m(et(ų|u)|\.)\b` -/
def ageValRx : Rx :=
  rxCat [rxB, rxOpt (rxCat [rxLit "man", ws1]), rxClsRep isDigitChar 1 2, wss,
    rxLit "m",
    rxAlt (rxCat [rxLit "et", rxAlt (rxLit "ų") (rxLit "u")]) (rxLit "."),
    rxB]

/-- `SAL_KWS`. -/
def salKwsRx : Rx :=
  rxCat [rxB,
    rxAlts [rxLit "alga", rxLit "atlyg", rxLit "įkain", rxLit "tarif",
            rxCat [rxLit "mok", rxAlt (rxLit "at") (rxLit "ėt")],
            rxLit "eur", rxLit "€", rxLit "rate", rxLit "pay", rxLit "klient",
            rxLit "lokacij", rxLit "adresas",
            rxCat [rxLit "tiksli", ws1, rxLit "vieta"]],
    rxClsStar isWordChar, rxB]

/-- Does `(m\.|metai|metu|metus)\b` match at the start of `s`? -/
def yearsUnitAt (s : Str) : Bool :=
  ["m.", "metai", "metu", "metus"].any (fun u =>
    u.data.isPrefixOf s &&
    (isWordO u.data.getLast? != isWordO (s.drop u.data.length).head?))

def digitsToNat (ds : Str) : Nat :=
  ds.foldl (fun acc c => acc * 10 + (c.toNat - '0'.toNat)) 0

/-- Does one digit count `d` work at this position of `_YEARS_PAT`
(digits, then `\s*`, then a year unit with a trailing `\b`)? -/
def yearsTryD (s : Str) (d : Nat) : Bool :=
  let rest := s.drop d
  yearsUnitAt (rest.drop (countWhile isPyWs rest))

/-- Leftmost `_YEARS_PAT` match: the captured digit group as a number.
Mirrors the engine's greedy `{1,3}` (longest digit run first, bounded by 3)
and the `\b` before the digits. -/
def findYears : Option Char → Str → Option Nat
  | _, [] => none
  | prev, c :: t =>
    let s := c :: t
    let k := min 3 (countWhile isDigitChar s)
    let hit := if isWordO prev then none
      else ((List.range (k + 1)).reverse.filter (1 ≤ ·)).findSome? (fun d =>
        if yearsTryD s d then some (digitsToNat (s.take d)) else none)
    match hit with
    | some v => some v
    | none => findYears (some c) t

/-- `_parse_experience_years` (regexes are `re.I`; input searched lowercased). -/
def parse_experience_years (text : Str) : Option Int :=
  if rxTest monthsRx (lowerStr text) || rxTest weeksRx (lowerStr text) ||
     rxTest daysRx (lowerStr text) then some 0
  else
    match findYears none (lowerStr text) with
    | none => none
    | some yrs =>
      if (yrs : Int) < 0 || (yrs : Int) > YEAR_MAX then none else some (yrs : Int)

/-- `_extract_availability`: `group(0)` of the leftmost `_AVAIL_PAT` match
(match found case-insensitively; the span of the original text is returned). -/
def extract_availability (text : Str) : Option Str :=
  match rxFindPos availRx (lowerStr text) with
  | some (i, n) => some ((text.drop i).take n)
  | none => none

/-! ## Opener-specialty extraction (`OPENER_SPEC_PAT_A/B`) -/

def isSpecCls (c : Char) : Bool :=
  ('a' ≤ c && c ≤ 'z') || c = 'ą' || c = 'č' || c = 'ę' || c = 'ė' || c = 'į' ||
  c = 'š' || c = 'ų' || c = 'ū' || c = 'ž' || c = '-'

/-- `ieškome\s+([a-ząčęėįšųūž\-]+)` on lowercased text; returns group 1. -/
def findIeskome : Str → Option Str
  | [] => none
  | c :: t =>
    let s := c :: t
    let attempt :=
      if "ieškome".data.isPrefixOf s then
        let rest := s.drop 7
        let w := countWhile isPyWs rest
        if 1 ≤ w then
          let g := (rest.drop w).takeWhile isSpecCls
          if g.isEmpty then none else some g
        else none
      else none
    match attempt with
    | some g => some g
    | none => findIeskome t

/-- `kuriame\s+reikalingas\s+([a-ząčęėįšųūž\-]+)` on lowercased text; group 1. -/
def findKuriame : Str → Option Str
  | [] => none
  | c :: t =>
    let s := c :: t
    let attempt :=
      if "kuriame".data.isPrefixOf s then
        let r1 := s.drop 7
        let w1 := countWhile isPyWs r1
        if 1 ≤ w1 && "reikalingas".data.isPrefixOf (r1.drop w1) then
          let r2 := (r1.drop w1).drop 11
          let w2 := countWhile isPyWs r2
          if 1 ≤ w2 then
            let g := (r2.drop w2).takeWhile isSpecCls
            if g.isEmpty then none else some g
          else none
        else none
      else none
    match attempt with
    | some g => some g
    | none => findKuriame t

/-- `_extract_opener_specialty`: first assistant message matching pattern A or
B (patterns are `re.I` and the group is `.lower()`-ed, so matching on the
lowercased text returns the same value). -/
def extract_opener_specialty (h : List Msg) : Option Str :=
  h.findSome? (fun m =>
    if m.role = "assistant".data then
      match findIeskome (lowerStr m.content) with
      | some g => some g
      | none => findKuriame (lowerStr m.content)
    else none)

/-! ## Slot memory (`_asked_which_slot`, `_inferred_slots`) -/

def asked_which_slot (msg : Str) : Option Str :=
  let s := lowerStr msg
  if containsSub "kiek metų patirties".data s then some "years".data
  else if containsSub "nuo kada galėtumėte pradėti".data s ||
          containsSub "koks grafikas tinka".data s then some "availability".data
  else none

def adjacentPairs : List Msg → List (Msg × Msg)
  | a :: b :: t => (a, b) :: adjacentPairs (b :: t)
  | _ => []

structure Slots where
  years : Option Int
  availability : Option Str
deriving DecidableEq, Repr

/-- One step of the `_inferred_slots` loop (the Python loop runs the pair
index from high to low, each qualifying pair overwriting the slot). -/
def inferredSlotsStep (acc : Slots) (p : Msg × Msg) : Slots :=
  if p.1.role = "assistant".data && p.2.role = "user".data then
    match asked_which_slot p.1.content with
    | some w =>
      if w = "years".data then
        let ans := stripWs p.2.content
        let y :=
          if rxTestCI ageValRx ans && !containsSub "patirt".data (lowerStr ans) then
            none
          else parse_experience_years ans
        { acc with years := y }
      else if w = "availability".data then
        { acc with availability := extract_availability (stripWs p.2.content) }
      else acc
    | none => acc
  else acc

def inferred_slots (h : List Msg) : Slots :=
  ((adjacentPairs h).reverse).foldl inferredSlotsStep ⟨none, none⟩

/-! ## Question detection and acknowledgement prefixes -/

def QUESTION_INTENTS : List Str :=
  ["project_question".data, "direct_question".data, "salary_question".data,
   "schedule_question".data, "location_question".data]

/-- `LT_Q_WORDS`. -/
def ltQWordsRx : Rx :=
  rxCat [rxB,
    rxAlts [rxLit "kas", rxLit "koks", rxLit "kokia", rxLit "kada", rxLit "kur",
            rxLit "kaip", rxLit "kiek", rxLit "del ko", rxLit "dėl ko"],
    rxB]

def looks_like_question (txt : Str) : Bool :=
  let t := stripWs txt
  t.getLast? = some '?' || rxTestCI ltQWordsRx txt

def ackPref (user_text : Str) : Str :=
  if (stripWs user_text).length ≤ 3 then []
  else if ["ačiū", "aciu", "ok", "gerai", "supratau"].any
            (fun w => containsSub w.data (lowerStr user_text)) then
    "Ačiū. ".data
  else "Supratau. ".data

/-! ## Future-interest helpers -/

def future_probe_needles : List Str :=
  ["ar ateityje norėtumėte bendradarbiauti".data,
   "ar ateityje norėtumėte susisiekti".data,
   "ar ateityje domintų".data,
   "palaikyti ryšį ateičiai".data]

def assistant_future_probe_asked (h : List Msg) : Bool :=
  let joined := joinSpace ((h.filter (fun m => m.role = "assistant".data)).map
    (fun m => lowerStr m.content))
  future_probe_needles.any (fun n => containsSub n joined)

def user_future_yes (text : Str) : Bool :=
  let t := lowerStr text
  ["taip", "tiktų", "norėčiau", "noreciau", "gal", "galbūt", "galbut", "būtų",
   "butu", "ateityje"].any (fun w => containsSub w.data t)

/-- `_last_assistant_question_type`. -/
def last_assistant_question_type (h : List Msg) : Option Str :=
  let last := last_assistant_text h
  if last.isEmpty then none
  else
    let s := norm last
    if containsSub "ar ateityje noretumete bendradarbiauti".data s ||
       containsSub "palaikyti rysi ateiciai".data s then some "future_probe".data
    else if containsSub "ar sis pasiulymas jums aktualus".data s ||
            containsSub "ar aktualu".data s then some "interest_check".data
    else if containsSub "kiek metu patirties".data s then some "years_q".data
    else if containsSub "nuo kada galetumete pradeti".data s ||
            containsSub "koks grafikas tinka".data s then some "availability_q".data
    else none

/-- `_AFFIRM_RX` (anchored at the start). -/
def affirmRx : Rx :=
  rxCat [wss,
    rxAlts [rxLit "taip", rxLit "jo", rxLit "ok", rxLit "tinka", rxLit "tiktu",
            rxLit "gerai", rxLit "domina", rxLit "galiu", rxLit "gal",
            rxLit "galbut", rxCat [rxLit "nor", rxClsPlus isWordChar],
            rxLit "butu", rxLit "būtų"],
    rxB]

/-- `_DECLINE_RX` (anchored at the start). -/
def declineRx : Rx :=
  rxCat [wss,
    rxAlts [rxLit "ne", rxLit "nedomina", rxLit "neaktualu", rxLit "nenoriu",
            rxLit "nereikia"],
    rxB]

def is_affirmative (txt : Str) : Bool := !(affirmRx (none, lowerStr txt)).isEmpty

def is_decline (txt : Str) : Bool := !(declineRx (none, lowerStr txt)).isEmpty

/-! ## Output post-processing (`_final_sms`, `_polish`, value-line stripping) -/

/-- `_final_sms`: collapse whitespace, strip, and hard-cap at 160 characters
(truncate to 157, right-strip, append the ellipsis character). -/
def final_sms (s : Str) : Str :=
  let s' := stripWs (collapseWs s)
  if s'.length > 160 then rstripWs (s'.take 157) ++ ['…'] else s'

/-- `re.split(r'(?<=[\.\!\?])\s+', msg)`: split at whitespace runs preceded
by sentence punctuation. -/
def sentSplitAux : Nat → Str → Option Char → Str → List Str
  | 0, cur, _, s => [cur.reverse ++ s]
  | _ + 1, cur, _, [] => [cur.reverse]
  | fuel + 1, cur, prev, c :: t =>
    if isPyWs c && (prev = some '.' || prev = some '!' || prev = some '?') then
      cur.reverse :: sentSplitAux fuel [] (some c) (t.dropWhile isPyWs)
    else sentSplitAux fuel (c :: cur) (some c) t

def sentSplit (s : Str) : List Str := sentSplitAux (s.length + 1) [] none s

/-- The stripped non-empty sentence parts, as built by both sentence filters. -/
def sentParts (msg : Str) : List Str :=
  ((sentSplit msg).map stripWs).filter (fun s => !s.isEmpty)

/-- `_strip_repeated_value_line`. -/
def strip_repeated_value_line (msg : Str) (h : List Msg) : Str :=
  if msg.isEmpty then msg
  else if assistant_has h (lowerStr VALUE_LINE) then
    let parts := (sentParts msg).filter
      (fun s => !containsSub (lowerStr VALUE_LINE) (lowerStr s))
    stripWs (joinSpace parts)
  else msg

/-- `\b(C|c)i?a?\s*Valandinis\.?lt\b|\b[Ee]su\s+Valandinis\.?lt\b` -/
def identRx : Rx :=
  rxAlt
    (rxCat [rxB, rxAlt (rxLit "C") (rxLit "c"), rxOpt (rxLit "i"),
      rxOpt (rxLit "a"), wss, rxLit "Valandinis", rxOpt (rxLit "."),
      rxLit "lt", rxB])
    (rxCat [rxB, rxAlt (rxLit "E") (rxLit "e"), rxLit "su", ws1,
      rxLit "Valandinis", rxOpt (rxLit "."), rxLit "lt", rxB])

/-- `\b[Ee]su\s+Valandinis\.?lt\b` -/
def esuRx : Rx :=
  rxCat [rxB, rxAlt (rxLit "E") (rxLit "e"), rxLit "su", ws1,
    rxLit "Valandinis", rxOpt (rxLit "."), rxLit "lt", rxB]

/-- `[Ss]pecialist\w*` -/
def specialistRx : Rx :=
  rxCat [rxAlt (rxLit "S") (rxLit "s"), rxLit "pecialist", rxClsStar isWordChar]

/-- `_BAD_LINES` (compiled with `re.I`). -/
def badLinesRx : Rx := rxLitCI "ar aktualu dabar, ar palikti ateičiai?"

/-- `^(Sveiki,?\s+){2,}` -/
def sveikiUnit : Rx := rxCat [rxLit "Sveiki", rxOpt (rxLit ","), ws1]

def sveikiRx : Rx := fun r =>
  rxCat [sveikiUnit, sveikiUnit, rxRepFuel sveikiUnit r.2.length] r

/-- `re.sub(r"^(Sveiki,?\s+){2,}", "Sveiki, ", r)`: the pattern is anchored,
so only a match at position 0 is replaced. -/
def subSveiki (s : Str) : Str :=
  match (sveikiRx (none, s)).head? with
  | some r' => "Sveiki, ".data ++ r'.2
  | none => s

def countQMarks (s : Str) : Nat := (s.filter (· = '?')).length

/-- `r.split("?")[0] + "?"`. -/
def firstQuestionOnly (s : Str) : Str := s.takeWhile (· != '?') ++ ['?']

/-- Is there a run of three ASCII letters (`[A-Za-z]{3,}`)? -/
def isAsciiLetter (c : Char) : Bool :=
  ('A' ≤ c && c ≤ 'Z') || ('a' ≤ c && c ≤ 'z')

def hasLatinRun3 : Str → Bool
  | [] => false
  | c :: t => (isAsciiLetter c && 3 ≤ countWhile isAsciiLetter (c :: t)) ||
              hasLatinRun3 t

def isLtDiacritic (c : Char) : Bool :=
  c = 'Ą' || c = 'Č' || c = 'Ę' || c = 'Ė' || c = 'Į' || c = 'Š' || c = 'Ų' ||
  c = 'Ū' || c = 'Ž' ||
  c = 'ą' || c = 'č' || c = 'ę' || c = 'ė' || c = 'į' || c = 'š' || c = 'ų' ||
  c = 'ū' || c = 'ž'

def NON_LT_FALLBACK : Str := "Atsakykite trumpai lietuviškai ir tęsime.".data

/-- The specialist-word substitution step of `_polish`. -/
def subSpecialist (opener_spec : Option Str) (r : Str) : Str :=
  if containsSub "specialist".data (lowerStr r) then
    rxSubAll specialistRx (opener_spec.getD "statybų srityje".data) r
  else r

/-- `_polish`. -/
def polish (reply : Str) (h : List Msg) (opener_spec : Option Str) : Str :=
  if reply.isEmpty then reply
  else
    let r0 := stripWs reply
    let r1 :=
      if identity_already_used h then
        stripWs (stripChars ",. ".data (rxSubAll identRx [] r0))
      else r0
    let r2 := rxSubAll esuRx "Rašau iš Valandinis.lt".data r1
    let r3 := subSpecialist opener_spec r2
    let r4 := stripWs (rxSubAll badLinesRx [] r3)
    let r5 := subSveiki r4
    let r6 := if countQMarks r5 > 1 then firstQuestionOnly r5 else r5
    let r7 := strip_repeated_value_line r6 h
    if hasLatinRun3 r7 && !r7.any isLtDiacritic then NON_LT_FALLBACK else r7

/-- `_close_and_return` (the sheet logging is external fire-and-forget). -/
def close_and_return (msg : Str) (h : List Msg) (opener_spec : Option Str) : Str :=
  final_sms (polish msg h opener_spec)

/-! ## The analyzer plan and the language-model oracle

`analyze` sends the text to the hosted model and parses the reply as JSON.
The model call is external and fallible; it is modelled by an oracle value:
`Except.error ()` when the client call raises (timeout/API error),
`Except.ok none` when the call succeeds but its content is not valid JSON
(`json.loads` fails and `obj = {}`), and `Except.ok (some raw)` for a parsed
object.  `RawPlan` is the parsed object after the `obj.get(...) or default`
extraction of `analyze` (fields whose value is missing or falsy are `none`). -/

structure RawPlan where
  job_interest : Option Str := none
  future_interest : Option Str := none
  intent : Option Str := none
  slots_years : Option Int := none
  slots_availability_text : Option Str := none
  asked_salary : Bool := false
  phone_only_topics : List Str := []
  busy_until : Option Str := none
  hesitant : Bool := false
  age_question : Bool := false
  age_value : Option Int := none
  trolling : Bool := false
deriving DecidableEq, Repr

structure Plan where
  job_interest : Str
  future_interest : Str
  intent : Str
  slots_years : Option Int
  slots_availability_text : Option Str
  asked_salary : Bool
  phone_only_topics : List Str
  busy_until : Option Str
  hesitant : Bool
  age_question : Bool
  age_value : Option Int
  trolling : Bool
deriving DecidableEq, Repr

structure Oracle where
  an : Except Unit (Option RawPlan)
  gen : Except Unit Str
deriving Repr

/-- The deterministic tail of `analyze`: defaults, the years range clamp, the
`age` phone-only topic, and the question-implies-interest bump. -/
def normalizePlan (obj : RawPlan) (user_text : Str) : Plan :=
  let ji := obj.job_interest.getD "unknown".data
  let intent := obj.intent.getD "other".data
  let years :=
    match obj.slots_years with
    | some y => if y < 0 || y > YEAR_MAX then none else some y
    | none => none
  let topics :=
    if obj.age_question || obj.age_value.isSome then
      if obj.phone_only_topics.contains "age".data then obj.phone_only_topics
      else obj.phone_only_topics ++ ["age".data]
    else obj.phone_only_topics
  let ji' :=
    if (ji = "unknown".data || ji = "unsure".data) &&
       (QUESTION_INTENTS.contains intent || looks_like_question user_text) then
      "yes".data
    else ji
  { job_interest := ji'
    future_interest := obj.future_interest.getD "unknown".data
    intent := intent
    slots_years := years
    slots_availability_text := obj.slots_availability_text
    asked_salary := obj.asked_salary
    phone_only_topics := topics
    busy_until := obj.busy_until
    hesitant := obj.hesitant
    age_question := obj.age_question
    age_value := obj.age_value
    trolling := obj.trolling }

/-- `analyze`: the surrounding `try` only guards `json.loads`; an exception
from the model client itself propagates to the caller. -/
def analyze (user_text : Str) (o : Except Unit (Option RawPlan)) :
    Except Unit Plan :=
  match o with
  | .error e => .error e
  | .ok none => .ok (normalizePlan {} user_text)
  | .ok (some obj) => .ok (normalizePlan obj user_text)

/-! ## The SYSTEM_PROMPT fingerprint (see the SHA-256 section below) -/

def IDENTITY_LINE : Str := "Rašau iš Valandinis.lt.".data

def INTEREST_CHECK_Q : Str := "Ar šis pasiūlymas jums aktualus?".data

def FUTURE_PROBE_Q : Str :=
  "Supratau, ačiū. Ar ateityje norėtumėte bendradarbiauti su Valandinis.lt?".data

def years_question (spec : Option Str) : Str :=
  "Kiek metų patirties turite kaip ".data ++ spec.getD "meistras".data ++ "?".data

def AVAILABILITY_Q : Str :=
  "Nuo kada galėtumėte pradėti arba koks grafikas tinka?".data

/-- Turn-local disambiguation of a short yes/no against the last assistant
question (the first mutation block of `generate_reply_lt`). -/
def disambiguate (plan : Plan) (lastQ : Option Str) (t_raw : Str) : Plan :=
  if lastQ = some "future_probe".data then
    if is_affirmative t_raw &&
       !(plan.intent = "accept".data || plan.intent = "call_request".data) then
      { plan with future_interest := "yes".data, job_interest := "no".data }
    else if is_decline t_raw then
      { plan with future_interest := "no".data, job_interest := "no".data }
    else plan
  else if lastQ = some "interest_check".data then
    if is_affirmative t_raw then { plan with job_interest := "yes".data }
    else if is_decline t_raw then { plan with job_interest := "no".data }
    else plan
  else plan

/-- The phone-only belt guard of the neutral path (lines 607-615): sentences
matching salary/age patterns are dropped unless the user brought the topic up. -/
def strip_phone_only (plan : Plan) (reply : Str) : Str :=
  if !(plan.asked_salary || plan.age_question || plan.age_value.isSome) &&
     !(plan.phone_only_topics.contains "salary".data ||
       plan.phone_only_topics.contains "age".data) then
    let kept := (sentParts reply).filter (fun s =>
      !(rxTestCI salKwsRx s || rxTestCI ageQRx s || rxTestCI ageValRx s))
    if kept.isEmpty then reply else joinSpace kept
  else reply

def contains_avail_q (reply : Str) : Bool :=
  containsSub "kada galėtumėte pradėti".data (lowerStr reply) ||
  containsSub "koks grafikas tinka".data (lowerStr reply)

def DEBUG_CMDS : List Str := ["!prompt".data, "!pf".data, "##prompt##".data]

def is_debug_cmd (t_raw : Str) : Bool :=
  DEBUG_CMDS.contains (lowerStr (t_raw.dropWhile (· = '\\')))

/-! ## SHA-256 (for `PROMPT_SHA = sha256(SYSTEM_PROMPT)[:12]`) -/

def M32 : Nat := 4294967296

def not32 (x : Nat) : Nat := 4294967295 - x

def rotr32 (x n : Nat) : Nat := (x / 2 ^ n + x % 2 ^ n * 2 ^ (32 - n)) % M32

def shr32 (x n : Nat) : Nat := x / 2 ^ n

def bigS0 (x : Nat) : Nat := (rotr32 x 2).xor ((rotr32 x 13).xor (rotr32 x 22))

def bigS1 (x : Nat) : Nat := (rotr32 x 6).xor ((rotr32 x 11).xor (rotr32 x 25))

def smS0 (x : Nat) : Nat := (rotr32 x 7).xor ((rotr32 x 18).xor (shr32 x 3))

def smS1 (x : Nat) : Nat := (rotr32 x 17).xor ((rotr32 x 19).xor (shr32 x 10))

def chF (x y z : Nat) : Nat := (x.land y).xor ((not32 x).land z)

def majF (x y z : Nat) : Nat := (x.land y).xor ((x.land z).xor (y.land z))

def K64 : List Nat :=
  [1116352408, 1899447441, 3049323471, 3921009573, 961987163,
   1508970993, 2453635748, 2870763221, 3624381080, 310598401,
   607225278, 1426881987, 1925078388, 2162078206, 2614888103,
   3248222580, 3835390401, 4022224774, 264347078, 604807628,
   770255983, 1249150122, 1555081692, 1996064986, 2554220882,
   2821834349, 2952996808, 3210313671, 3336571891, 3584528711,
   113926993, 338241895, 666307205, 773529912, 1294757372,
   1396182291, 1695183700, 1986661051, 2177026350, 2456956037,
   2730485921, 2820302411, 3259730800, 3345764771, 3516065817,
   3600352804, 4094571909, 275423344, 430227734, 506948616,
   659060556, 883997877, 958139571, 1322822218, 1537002063,
   1747873779, 1955562222, 2024104815, 2227730452, 2361852424,
   2428436474, 2756734187, 3204031479, 3329325298]

structure H8 where
  a : Nat
  b : Nat
  c : Nat
  d : Nat
  e : Nat
  f : Nat
  g : Nat
  hh : Nat
deriving Repr

def H8init : H8 :=
  ⟨1779033703, 3144134277, 1013904242, 2773480762,
   1359893119, 2600822924, 528734635, 1541459225⟩

def compStep (st : H8) (wk : Nat × Nat) : H8 :=
  let t1 := (st.hh + bigS1 st.e + chF st.e st.f st.g + wk.2 + wk.1) % M32
  let t2 := (bigS0 st.a + majF st.a st.b st.c) % M32
  ⟨(t1 + t2) % M32, st.a, st.b, st.c, (st.d + t1) % M32, st.e, st.f, st.g⟩

/-- Message-schedule extension, working over the reversed word list. -/
def schedAux : List Nat → Nat → List Nat
  | rw, 0 => rw
  | rw, n + 1 =>
    schedAux ((smS1 (rw.getD 1 0) + rw.getD 6 0 + smS0 (rw.getD 14 0) +
               rw.getD 15 0) % M32 :: rw) n

def sched (block : List Nat) : List Nat := (schedAux block.reverse 48).reverse

def processBlock (hs : H8) (block : List Nat) : H8 :=
  let st := ((sched block).zip K64).foldl compStep hs
  ⟨(hs.a + st.a) % M32, (hs.b + st.b) % M32, (hs.c + st.c) % M32,
   (hs.d + st.d) % M32, (hs.e + st.e) % M32, (hs.f + st.f) % M32,
   (hs.g + st.g) % M32, (hs.hh + st.hh) % M32⟩

def utf8Bytes (c : Char) : List Nat :=
  let n := c.toNat
  if n < 128 then [n]
  else if n < 2048 then [192 + n / 64, 128 + n % 64]
  else if n < 65536 then [224 + n / 4096, 128 + n / 64 % 64, 128 + n % 64]
  else [240 + n / 262144, 128 + n / 4096 % 64, 128 + n / 64 % 64, 128 + n % 64]

def strBytes (s : Str) : List Nat := s.flatMap utf8Bytes

def lenBytesBE (bits : Nat) : List Nat :=
  (List.range 8).reverse.map (fun i => bits / 256 ^ i % 256)

def padBytes (bs : List Nat) : List Nat :=
  let l := bs.length
  let k := (64 + 56 - (l + 1) % 64) % 64
  bs ++ [128] ++ List.replicate k 0 ++ lenBytesBE (8 * l)

def group4 : List Nat → List Nat
  | b0 :: b1 :: b2 :: b3 :: rest => (((b0 * 256 + b1) * 256 + b2) * 256 + b3) :: group4 rest
  | _ => []

def group16 : List Nat → List (List Nat)
  | w0 :: w1 :: w2 :: w3 :: w4 :: w5 :: w6 :: w7 ::
    w8 :: w9 :: w10 :: w11 :: w12 :: w13 :: w14 :: w15 :: rest =>
    [w0, w1, w2, w3, w4, w5, w6, w7, w8, w9, w10, w11, w12, w13, w14, w15] ::
      group16 rest
  | _ => []

def hexDigit (n : Nat) : Char := "0123456789abcdef".data.getD n 'x'

def toHex8 (w : Nat) : Str :=
  (List.range 8).reverse.map (fun i => hexDigit (w / 16 ^ i % 16))

def sha256hex (s : Str) : Str :=
  let blocks := group16 (group4 (padBytes (strBytes s)))
  let f := blocks.foldl processBlock H8init
  [f.a, f.b, f.c, f.d, f.e, f.f, f.g, f.hh].flatMap toHex8

/-- The `SYSTEM_PROMPT` triple-quoted literal (before `.strip()`). -/
def SYSTEM_PROMPT_RAW : String :=
  "\nYou write ONE Lithuanian SMS (≤160 chars) on behalf of Valandinis (valandinis.lt).\n\nObjectives:\n1) Be human: answer the person’s last message first (1 short line), with a warm, non-pushy tone.\n2) Determine interest in THIS opening (city + trade). Treat genuine job/salary/schedule questions as interest — EXCEPT on the very first reply after the opener, where you must ask an explicit interest check instead of closing.\n3) If clearly interested, you may close quickly; otherwise collect years → availability, then close.\n\nHard rules:\n- Lithuanian; 1–2 short sentences; no exclamation spam.\n- Identity only in the first bot message of the thread. Never say you are a bot/AI.\n- Don’t invent pay/clients/precise locations/contract terms; if asked, say it’s best aligned by phone and follow with one helpful next step.\n- City & trade come from the opener; don’t change unless corrected by the person.\n- Slot order: years first, then availability. Never ask availability before years.\n- If user asks to call, you can close immediately.\n- Banned phrase: “Ar aktualu dabar, ar palikti ateičiai?” and any meta like “esu Valandinis.lt”.\n\nOutput: ONLY the final SMS text.\n"

/-- `SYSTEM_PROMPT = """...""".strip()`. -/
def SYSTEM_PROMPT : Str := stripWs SYSTEM_PROMPT_RAW.data

/-- `PROMPT_SHA = hashlib.sha256(SYSTEM_PROMPT.encode("utf-8")).hexdigest()[:12]`. -/
def PROMPT_SHA : Str := (sha256hex SYSTEM_PROMPT).take 12

/-- The reply of the debug-command branch: `(f"{PROMPT_SHA} {MODEL}")[:160]`. -/
def debug_reply : Str := (PROMPT_SHA ++ [' '] ++ MODEL).take 160

/-! ## The reply generator (`generate_reply_lt`)

The message-store read `_thread_history(msisdn)` is an external collaborator;
the history it returns is a parameter.  The two model calls (`analyze`,
`generate_sms`) consume the oracle.  The fields `opener_specialty`,
`user_trade` and `specialty_mismatch` that the source adds to the plan dict
only decorate the JSON payload sent to the external generator model and read
nothing back, so they do not appear in the embedding. -/

def reply_with_plan (h : List Msg) (t_raw : Str) (plan : Plan)
    (gen : Except Unit Str) : Except Unit Str :=
  if plan.trolling then
    .ok (close_and_return TROLL_CLOSE h (extract_opener_specialty h))
  else
    let slots_hist := inferred_slots h
    let have_years := slots_hist.years.isSome || plan.slots_years.isSome
    let have_avail := slots_hist.availability.isSome ||
      plan.slots_availability_text.isSome || plan.busy_until.isSome
    let opener_spec := extract_opener_specialty h
    let is_q := QUESTION_INTENTS.contains plan.intent ||
      looks_like_question t_raw
    if is_first_user_reply_after_opener h && is_q then
      let identity := if identity_already_used h then []
        else "Rašau iš Valandinis.lt. ".data
      let role_word := opener_spec.getD "elektriko".data
      let answer :=
        if plan.intent = "salary_question".data then
          "Ačiū už klausimą — atlygio klausimą patogiausia suderinti telefonu.".data
        else
          ackPref t_raw ++ "Tai darbas ".data ++ role_word ++
          " pozicijoje Klaipėdoje; detales suderinsime telefonu.".data
      let msg := stripWs (identity ++ answer ++ [' '] ++ INTEREST_CHECK_Q)
      .ok (final_sms (polish msg h opener_spec))
    else if is_q then
      let role_word := opener_spec.getD "elektriko".data
      let answer :=
        if plan.intent = "salary_question".data then
          "Ačiū už klausimą — dėl atlygio patogiausia suderinti telefonu, kolega paskambins.".data
        else
          ackPref t_raw ++ "Tai darbas ".data ++ role_word ++
          " pozicijoje; konkrečias sąlygas suderinsime telefonu.".data
      if plan.job_interest = "yes".data then
        .ok (close_and_return HUMAN_CLOSE h opener_spec)
      else
        .ok (final_sms (polish (answer ++ [' '] ++ INTEREST_CHECK_Q) h opener_spec))
    else if plan.intent = "identity_question".data then
      let ident := if !identity_already_used h then IDENTITY_LINE else []
      .ok (final_sms (polish (stripWs (ident ++ [' '] ++ INTEREST_CHECK_Q)) h
        opener_spec))
    else if plan.intent = "call_request".data then
      .ok (close_and_return CALL_CLOSE h opener_spec)
    else
      -- interested branch, with the future-probe guard that demotes
      -- job_interest to "no" and falls through to the decline branch
      let ji :=
        if plan.job_interest = "yes".data &&
           last_assistant_question_type h = some "future_probe".data &&
           !(plan.intent = "accept".data || plan.intent = "call_request".data)
        then "no".data else plan.job_interest
      if ji = "yes".data then
        if have_years && have_avail then
          .ok (close_and_return HUMAN_CLOSE h opener_spec)
        else if have_years || have_avail then
          .ok (close_and_return HUMAN_CLOSE h opener_spec)
        else if !have_years then
          .ok (final_sms (polish (years_question opener_spec) h opener_spec))
        else
          .ok (final_sms (polish AVAILABILITY_Q h opener_spec))
      else if ji = "no".data then
        if is_hard_stop t_raw then
          .ok (close_and_return DNC_CLOSE h opener_spec)
        else if plan.future_interest = "yes".data || user_future_yes t_raw then
          .ok (close_and_return FUTURE_CLOSE h opener_spec)
        else if (plan.future_interest = "unknown".data ||
                 plan.future_interest = "unsure".data) &&
                !assistant_future_probe_asked h then
          .ok (final_sms (polish FUTURE_PROBE_Q h opener_spec))
        else
          .ok (close_and_return DNC_CLOSE h opener_spec)
      else
        match gen with
        | .error e => .error e
        | .ok draft =>
          let r1 := strip_phone_only plan draft
          let r2 :=
            if contains_avail_q r1 && !have_years then
              years_question opener_spec
            else r1
          .ok (final_sms (polish r2 h opener_spec))

def generate_reply_lt (h : List Msg) (text : Str) (o : Oracle) :
    Except Unit Str :=
  let t_raw := stripWs text
  if t_raw.isEmpty then .ok []
  else if is_debug_cmd t_raw then .ok debug_reply
  else if assistant_last_was_close h then
    -- swallow any post-close message (ack or not), never re-open
    .ok []
  else
    match apply_close_rules t_raw with
    | some close_msg => .ok (close_and_return close_msg h (extract_opener_specialty h))
    | none =>
      if rxTestCI robotRx t_raw then
        let ident := if !identity_already_used h then IDENTITY_LINE else []
        .ok (final_sms (polish (if ident.isEmpty then [' '] else ident) h
          (extract_opener_specialty h)))
      else
        match analyze t_raw o.an with
        | .error e => .error e
        | .ok plan0 =>
          reply_with_plan h t_raw
            (disambiguate plan0 (last_assistant_question_type h) t_raw) o.gen

/-! ## Thread outcome (`classify_thread_outcome`, `summarize_thread_kpis`)
and the idempotent finalize step -/

def is_yes_txt (txt : Str) : Bool :=
  let t := lowerStr txt
  (["taip", "domina", "įdomu", "tinka", "gerai", "ok", "esu atviras",
    "atvira"].any (fun w => containsSub w.data t)) && !(
    let tl := stripWs (lowerStr t)
    tl = "ne".data ||
    ["nedomina", "ne, ačiū", "ne domina", "nebus", "nenoriu"].any
      (fun w => containsSub w.data tl))

def is_no_txt (txt : Str) : Bool :=
  let t := stripWs (lowerStr txt)
  t = "ne".data ||
  ["nedomina", "ne, ačiū", "ne domina", "nebus", "nenoriu"].any
    (fun w => containsSub w.data t)

def is_maybe_future (txt : Str) : Bool :=
  let t := lowerStr txt
  ["gal ateity", "gal vėliau", "kai bus laisviau", "vėliau gal",
   "ateityje"].any (fun w => containsSub w.data t)

structure Outcome where
  outcome : Str
  future_maybe : Bool
  years : Option Int
  availability : Option Str
deriving DecidableEq, Repr

def last_user_text (h : List Msg) : Str :=
  match h.reverse.find? (fun m => m.role = "user".data) with
  | some m => stripWs m.content
  | none => []

/-- `classify_thread_outcome`: outcome derived from the close that was
actually sent, with the legacy last-user-message fallback. -/
def classify_thread_outcome (h : List Msg) : Outcome :=
  let slots := inferred_slots h
  let ctype := last_close_type h
  if ctype = some "human".data then
    ⟨"interested".data, false, slots.years, slots.availability⟩
  else if ctype = some "future".data then
    ⟨"interested".data, true, slots.years, slots.availability⟩
  else if ctype = some "dnc".data || ctype = some "troll".data then
    ⟨"not_interested".data, false, slots.years, slots.availability⟩
  else
    let lu := last_user_text h
    let fm := is_maybe_future lu
    if is_no_txt lu then ⟨"not_interested".data, fm, slots.years, slots.availability⟩
    else if looks_like_question lu || is_yes_txt lu || slots.years.isSome ||
            slots.availability.isSome then
      ⟨"interested".data, fm, slots.years, slots.availability⟩
    else ⟨"undecided".data, fm, slots.years, slots.availability⟩

structure KPI where
  interested : Str
  future_interest : Str
  years : Option Int
deriving DecidableEq, Repr

/-- The close-type-derived `future_interest` of `summarize_thread_kpis`
(the value before the optional analyzer hint). -/
def fi_from_close (h : List Msg) : Str :=
  let ctype := last_close_type h
  if ctype = some "future".data then "yes".data
  else if ctype = some "dnc".data || ctype = some "troll".data then "no".data
  else "unknown".data

/-- Does `summarize_thread_kpis` attempt a language-model (`analyze`) call? -/
def summarize_calls_llm (h : List Msg) (lastUser : Str) : Bool :=
  fi_from_close h = "unknown".data && !lastUser.isEmpty

/-- The `interested` column of `summarize_thread_kpis`. -/
def summarize_interested (h : List Msg) : Str :=
  let out := classify_thread_outcome h
  if out.outcome = "interested".data then "yes".data
  else if out.outcome = "not_interested".data then "no".data
  else "unsure".data

/-- The `future_interest` column of `summarize_thread_kpis`: close type
first, then (only if still unknown and a last user text was passed) the
analyzer hint, then the legacy `future_maybe`/outcome fallback. -/
def summarize_fi (h : List Msg) (lastUser : Str) (o : Oracle) : Str :=
  let out := classify_thread_outcome h
  let fi0 := fi_from_close h
  let fi1 :=
    if fi0 = "unknown".data && !lastUser.isEmpty then
      match analyze lastUser o.an with
      | .ok p =>
        if p.future_interest = "yes".data || p.future_interest = "no".data ||
           p.future_interest = "unsure".data || p.future_interest = "unknown".data
        then p.future_interest else fi0
      | .error _ => fi0
    else fi0
  if fi1 = "unknown".data then
    if out.future_maybe then "yes".data
    else if out.outcome = "not_interested".data then "no".data
    else "unknown".data
  else fi1

/-- `summarize_thread_kpis` over the thread's history (the `_thread_history`
read is the external message store).  The analyzer hint uses the oracle; an
oracle error is caught (`except Exception: pass`). -/
def summarize_thread_kpis (h : List Msg) (lastUser : Str) (o : Oracle) : KPI :=
  ⟨summarize_interested h, summarize_fi h lastUser o,
   (classify_thread_outcome h).years⟩

/-! ## `_finalize_thread_once` (`app/main.py` / `app/routers/chat.py`)

State: the thread's `status` column plus the external ThreadKPIs sheet (an
append-only row list).  The sheet write and the commit are modelled on their
success path (both are wrapped in best-effort `try`/`except` in the source). -/

structure FinState where
  status : Str
  kpiRows : List KPI
deriving DecidableEq, Repr

def finalize_thread_once (h : List Msg) (lastUser : Str) (o : Oracle)
    (st : FinState) : FinState :=
  if st.status = "closed".data then st
  else ⟨"closed".data, st.kpiRows ++ [summarize_thread_kpis h lastUser o]⟩

/-! ## Shared fixtures and helper lemmas for the verification theorems -/

deriving instance DecidableEq for Except

set_option maxRecDepth 20000

set_option maxHeartbeats 1000000

/-- A neutral analyzer object: interest unsure, intent `other`. -/
def rpNeutral : RawPlan :=
  { job_interest := some "unsure".data, intent := some "other".data }

/-- An analyzer object carrying only intent `other`. -/
def rpOther : RawPlan := { intent := some "other".data }

/-- Oracle: analyzer returns `rpNeutral`, generator returns a short reply. -/
def oNeutral : Oracle := ⟨.ok (some rpNeutral), .ok "Ačiū, supratau.".data⟩

/-- Oracle: the model client raises on the analyzer call. -/
def oErr : Oracle := ⟨.error (), .ok []⟩

/-- Oracle: the analyzer call returns unparseable content (`json.loads` fails). -/
def oParseFail : Oracle := ⟨.ok none, .ok "Ačiū, supratau.".data⟩

/-- Oracle: neutral plan, generator drafts an availability question. -/
def oAvailDraft : Oracle := ⟨.ok (some rpNeutral), .ok "Kada galėtumėte pradėti?".data⟩

def histDnc : List Msg := [⟨"assistant".data, DNC_CLOSE⟩]

def histTroll : List Msg := [⟨"assistant".data, TROLL_CLOSE⟩]

def histFuture : List Msg := [⟨"assistant".data, FUTURE_CLOSE⟩]

def histHuman : List Msg := [⟨"assistant".data, HUMAN_CLOSE⟩]

/-- A thread whose last outbound message is the future-interest probe. -/
def probeHist : List Msg :=
  [mAsst "Supratau, ačiū. Ar ateityje norėtumėte bendradarbiauti su Valandinis.lt?"]

/-- `HUMAN_CLOSE` as actually sent on a thread where the identity was already
used: `_polish`'s `.strip(",. ")` removes the trailing period. -/
def HUMAN_CLOSE_SENT : Str :=
  "Ačiū už Jūsų laiką — užsirašiau. Perduosiu kolegai – paskambins dėl detalių".data

/-- `FUTURE_CLOSE` as actually sent on such a thread (trailing period removed
by the same polish step). -/
def FUTURE_CLOSE_SENT : Str :=
  "Puiku — užsirašysiu ateičiai. Siūlome lanksčius grafikus, greitą pradžią ir paprastą procesą įsidarbinant".data

theorem subSpecialist_skip (spec : Option Str) (r : Str)
    (hc : containsSub "specialist".data (lowerStr r) = false) :
    subSpecialist spec r = r := by
  unfold subSpecialist
  rw [hc]
  rfl

/-- `_polish` and `_final_sms` leave `DNC_CLOSE` untouched on any history. -/
theorem polish_dnc_close (h : List Msg) (spec : Option Str) :
    close_and_return DNC_CLOSE h spec = DNC_CLOSE := by
  unfold close_and_return polish
  cases hid : identity_already_used h <;> simp only [hid] <;>
    rw [subSpecialist_skip spec _ (by decide)] <;>
    unfold strip_repeated_value_line <;>
    cases hv : assistant_has h (lowerStr VALUE_LINE) <;> simp only [hv] <;> decide

/-- `_polish` and `_final_sms` leave the default years question untouched. -/
theorem polish_years_default (h : List Msg) :
    final_sms (polish (years_question none) h none) = years_question none := by
  unfold polish
  cases hid : identity_already_used h <;> simp only [hid] <;>
    rw [subSpecialist_skip none _ (by decide)] <;>
    unfold strip_repeated_value_line <;>
    cases hv : assistant_has h (lowerStr VALUE_LINE) <;> simp only [hv] <;> decide

theorem disambiguate_none (p : Plan) (t : Str) : disambiguate p none t = p := by
  unfold disambiguate
  rw [if_neg (by decide), if_neg (by decide)]

theorem is_hard_stop_empty : is_hard_stop [] = false := by decide

theorem is_debug_cmd_empty : is_debug_cmd [] = false := by decide

/-- Sanity check of the SHA-256 embedding against the FIPS 180-4 test vector. -/
theorem sha256_abc :
    sha256hex "abc".data =
      "ba7816bf8f01cfea414140de5dae2223b00361a396177a9cb410ff61f20015ad".data := by
  decide

/-- The 12-hex-character fingerprint of the module's `SYSTEM_PROMPT`. -/
theorem prompt_sha_value : PROMPT_SHA = "716f43dca12f".data := by decide

theorem debug_reply_value : debug_reply = "716f43dca12f gpt-4o-mini".data := by
  unfold debug_reply MODEL
  rw [prompt_sha_value]
  decide

/-- A debug command always takes the fingerprint branch, whatever the thread
state and oracle. -/
theorem generate_reply_debug (h : List Msg) (text : Str) (o : Oracle)
    (hdbg : is_debug_cmd (stripWs text) = true) :
    generate_reply_lt h text o = .ok debug_reply := by
  have hne : (stripWs text).isEmpty = false := by
    cases he : (stripWs text).isEmpty
    · rfl
    · rw [List.isEmpty_iff] at he
      rw [he, is_debug_cmd_empty] at hdbg
      exact absurd hdbg (by decide)
  unfold generate_reply_lt
  simp only [hne, hdbg, Bool.false_eq_true, if_false, if_true]

theorem dropWhile_length_le (p : Char → Bool) (l : Str) :
    (l.dropWhile p).length ≤ l.length := by
  induction l with
  | nil => simp [List.dropWhile]
  | cons c t ih =>
    by_cases hp : p c
    · simp only [List.dropWhile, hp, List.length_cons]
      omega
    · simp [List.dropWhile, hp]

theorem rstripWs_length_le (l : Str) : (rstripWs l).length ≤ l.length := by
  unfold rstripWs
  simp only [List.length_reverse]
  exact le_trans (dropWhile_length_le _ _) (by simp)

/-! ## Claim C1 — canonical close recoverability -/

/-- Claim C1 (amended): for every thread whose last outbound message equals a
canonical closing template, the outcome summarizer deterministically returns
the pair — DNC template -> (no, no); troll template -> (no, no); future
template -> (yes, yes) — with no language-model call attempted; for the human
template the pair is (yes, unknown) (not (yes, no) as originally claimed),
with no model call when no last user text is supplied, while a nonempty last
user text makes the summarizer attempt one analyzer call on this path. -/
theorem c1_canonical_close_recoverability :
    (∀ (h : List Msg) (lu : Str) (o : Oracle),
      last_assistant_text h = DNC_CLOSE →
        (summarize_thread_kpis h lu o).interested = "no".data ∧
        (summarize_thread_kpis h lu o).future_interest = "no".data ∧
        summarize_calls_llm h lu = false) ∧
    (∀ (h : List Msg) (lu : Str) (o : Oracle),
      last_assistant_text h = TROLL_CLOSE →
        (summarize_thread_kpis h lu o).interested = "no".data ∧
        (summarize_thread_kpis h lu o).future_interest = "no".data ∧
        summarize_calls_llm h lu = false) ∧
    (∀ (h : List Msg) (lu : Str) (o : Oracle),
      last_assistant_text h = FUTURE_CLOSE →
        (summarize_thread_kpis h lu o).interested = "yes".data ∧
        (summarize_thread_kpis h lu o).future_interest = "yes".data ∧
        summarize_calls_llm h lu = false) ∧
    (∀ (h : List Msg) (o : Oracle),
      last_assistant_text h = HUMAN_CLOSE →
        (summarize_thread_kpis h [] o).interested = "yes".data ∧
        (summarize_thread_kpis h [] o).future_interest = "unknown".data ∧
        summarize_calls_llm h [] = false) ∧
    (∀ (h : List Msg) (lu : Str),
      last_assistant_text h = HUMAN_CLOSE → lu.isEmpty = false →
        summarize_calls_llm h lu = true) := by
  refine ⟨?_, ?_, ?_, ?_, ?_⟩
  · intro h lu o hl
    have hct : last_close_type h = some "dnc".data := by
      unfold last_close_type; rw [hl]; decide
    have hfi : fi_from_close h = "no".data := by
      unfold fi_from_close; rw [hct]
      rw [if_neg (by decide), if_pos (by decide)]
    have hcl : classify_thread_outcome h =
        ⟨"not_interested".data, false, (inferred_slots h).years,
          (inferred_slots h).availability⟩ := by
      unfold classify_thread_outcome
      rw [hct]
      rw [if_neg (by decide), if_neg (by decide), if_pos (by decide)]
    refine ⟨?_, ?_, ?_⟩
    · simp only [summarize_thread_kpis]
      unfold summarize_interested
      rw [hcl]
      rfl
    · simp only [summarize_thread_kpis]
      unfold summarize_fi
      rw [hcl, hfi]
      rfl
    · unfold summarize_calls_llm
      rw [hfi]
      rfl
  · intro h lu o hl
    have hct : last_close_type h = some "troll".data := by
      unfold last_close_type; rw [hl]; decide
    have hfi : fi_from_close h = "no".data := by
      unfold fi_from_close; rw [hct]
      rw [if_neg (by decide), if_pos (by decide)]
    have hcl : classify_thread_outcome h =
        ⟨"not_interested".data, false, (inferred_slots h).years,
          (inferred_slots h).availability⟩ := by
      unfold classify_thread_outcome
      rw [hct]
      rw [if_neg (by decide), if_neg (by decide), if_pos (by decide)]
    refine ⟨?_, ?_, ?_⟩
    · simp only [summarize_thread_kpis]
      unfold summarize_interested
      rw [hcl]
      rfl
    · simp only [summarize_thread_kpis]
      unfold summarize_fi
      rw [hcl, hfi]
      rfl
    · unfold summarize_calls_llm
      rw [hfi]
      rfl
  · intro h lu o hl
    have hct : last_close_type h = some "future".data := by
      unfold last_close_type; rw [hl]; decide
    have hfi : fi_from_close h = "yes".data := by
      unfold fi_from_close; rw [hct]
      rw [if_pos (by decide)]
    have hcl : classify_thread_outcome h =
        ⟨"interested".data, true, (inferred_slots h).years,
          (inferred_slots h).availability⟩ := by
      unfold classify_thread_outcome
      rw [hct]
      rw [if_neg (by decide), if_pos (by decide)]
    refine ⟨?_, ?_, ?_⟩
    · simp only [summarize_thread_kpis]
      unfold summarize_interested
      rw [hcl]
      rfl
    · simp only [summarize_thread_kpis]
      unfold summarize_fi
      rw [hcl, hfi]
      rfl
    · unfold summarize_calls_llm
      rw [hfi]
      rfl
  · intro h o hl
    have hct : last_close_type h = some "human".data := by
      unfold last_close_type; rw [hl]; decide
    have hfi : fi_from_close h = "unknown".data := by
      unfold fi_from_close; rw [hct]
      rw [if_neg (by decide), if_neg (by decide)]
    have hcl : classify_thread_outcome h =
        ⟨"interested".data, false, (inferred_slots h).years,
          (inferred_slots h).availability⟩ := by
      unfold classify_thread_outcome
      rw [hct]
      rw [if_pos (by decide)]
    refine ⟨?_, ?_, ?_⟩
    · simp only [summarize_thread_kpis]
      unfold summarize_interested
      rw [hcl]
      rfl
    · simp only [summarize_thread_kpis]
      unfold summarize_fi
      rw [hcl, hfi]
      rfl
    · unfold summarize_calls_llm
      rw [hfi]
      rfl
  · intro h lu hl hlu
    have hct : last_close_type h = some "human".data := by
      unfold last_close_type; rw [hl]; decide
    have hfi : fi_from_close h = "unknown".data := by
      unfold fi_from_close; rw [hct]
      rw [if_neg (by decide), if_neg (by decide)]
    unfold summarize_calls_llm
    rw [hfi, hlu]
    rfl

/-- Claim C1 witness: the theorem applied to one-message threads ending in
each canonical template. -/
theorem c1_canonical_close_recoverability_witness :
    ((summarize_thread_kpis histDnc [] oNeutral).interested = "no".data ∧
     (summarize_thread_kpis histDnc [] oNeutral).future_interest = "no".data ∧
     summarize_calls_llm histDnc [] = false) ∧
    ((summarize_thread_kpis histTroll [] oNeutral).interested = "no".data ∧
     (summarize_thread_kpis histTroll [] oNeutral).future_interest = "no".data ∧
     summarize_calls_llm histTroll [] = false) ∧
    ((summarize_thread_kpis histFuture [] oNeutral).interested = "yes".data ∧
     (summarize_thread_kpis histFuture [] oNeutral).future_interest = "yes".data ∧
     summarize_calls_llm histFuture [] = false) ∧
    ((summarize_thread_kpis histHuman [] oNeutral).interested = "yes".data ∧
     (summarize_thread_kpis histHuman [] oNeutral).future_interest = "unknown".data ∧
     summarize_calls_llm histHuman [] = false) ∧
    summarize_calls_llm histHuman "taip".data = true :=
  ⟨c1_canonical_close_recoverability.1 histDnc [] oNeutral rfl,
   c1_canonical_close_recoverability.2.1 histTroll [] oNeutral rfl,
   c1_canonical_close_recoverability.2.2.1 histFuture [] oNeutral rfl,
   c1_canonical_close_recoverability.2.2.2.1 histHuman oNeutral rfl,
   c1_canonical_close_recoverability.2.2.2.2 histHuman "taip".data rfl (by decide)⟩

/-- Claim C1 counterexample: a thread closed with the human template
summarizes to `(yes, unknown)`, not the claimed `(yes, no)`. -/
theorem c1_human_close_counterexample :
    (summarize_thread_kpis histHuman [] oNeutral).interested = "yes".data ∧
    (summarize_thread_kpis histHuman [] oNeutral).future_interest = "unknown".data ∧
    (summarize_thread_kpis histHuman [] oNeutral).future_interest ≠ "no".data := by
  refine ⟨by decide, by decide, by decide⟩

/-! ## Claim C2 — hard-stop priority -/

/-- Claim C2 (amended): for every inbound message whose stripped text matches
the DNC close-rule pattern, processed on a thread that is not already closed
and that is not a debug command, the reply is always the canonical DNC closing
template, whatever else the message contains — the DNC rule is first among
the close rules and fires before any language-model call.  (The reply
generator itself never touches the contact's dnc flag, and the claim's
example phrase "nebesiųskite" is not matched by the pattern; see the
counterexample.) -/
theorem c2_hard_stop_reply_dnc (h : List Msg) (text : Str) (o : Oracle)
    (hstop : is_hard_stop (stripWs text) = true)
    (hdbg : is_debug_cmd (stripWs text) = false)
    (hclosed : assistant_last_was_close h = false) :
    generate_reply_lt h text o = .ok DNC_CLOSE := by
  have hne : (stripWs text).isEmpty = false := by
    cases he : (stripWs text).isEmpty
    · rfl
    · rw [List.isEmpty_iff] at he
      rw [he, is_hard_stop_empty] at hstop
      exact absurd hstop (by decide)
  have hac : apply_close_rules (stripWs text) = some DNC_CLOSE := by
    unfold apply_close_rules
    unfold is_hard_stop at hstop
    rw [hstop]
    rfl
  unfold generate_reply_lt
  simp only [hne, hdbg, hclosed, hac, Bool.false_eq_true, if_false]
  exact congrArg Except.ok (polish_dnc_close h (extract_opener_specialty h))

/-- Claim C2 witness: "stop" on a fresh thread yields exactly the DNC
closing template. -/
theorem c2_hard_stop_reply_dnc_witness :
    generate_reply_lt [] "stop".data oNeutral = .ok DNC_CLOSE :=
  c2_hard_stop_reply_dnc [] "stop".data oNeutral (by decide) (by decide)
    (by decide)

/-- Claim C2 counterexample: "nebesiųskite" — the claim's own example of an
explicit opt-out phrase — does not match the DNC rule; the turn falls through
to the language-model path and the reply is not the DNC template. -/
theorem c2_nebesiuskite_counterexample :
    is_hard_stop "nebesiųskite".data = false ∧
    apply_close_rules "nebesiųskite".data = none ∧
    generate_reply_lt [] "nebesiųskite".data oNeutral =
      .ok "Ačiū, supratau.".data ∧
    ("Ačiū, supratau.".data : Str) ≠ DNC_CLOSE := by
  refine ⟨by decide, by decide, by decide, by decide⟩

/-! ## Claim C3 — post-close silence -/

/-- Claim C3 (amended): for every thread whose last outbound message matches a
canonical closing template, any subsequent inbound message that is not one of
the debug commands (`!prompt`, `!pf`, `##prompt##`) yields the empty reply,
and finalizing an already-closed thread is a no-op (no state transition, no
KPI row).  The debug commands are an exception: they produce an outbound
reply even on a closed thread (see the counterexample). -/
theorem c3_post_close_silence :
    (∀ (h : List Msg) (text : Str) (o : Oracle),
      assistant_last_was_close h = true →
      is_debug_cmd (stripWs text) = false →
      generate_reply_lt h text o = .ok []) ∧
    (∀ (h : List Msg) (lu : Str) (o : Oracle) (st : FinState),
      st.status = "closed".data → finalize_thread_once h lu o st = st) := by
  constructor
  · intro h text o hcl hdbg
    unfold generate_reply_lt
    cases he : (stripWs text).isEmpty
    · simp only [he, hdbg, hcl, Bool.false_eq_true, if_false, if_true]
    · simp only [he, if_true]
  · intro h lu o st hst
    unfold finalize_thread_once
    rw [if_pos hst]

/-- Claim C3 witness: on a thread closed with the DNC template, "ačiū" gets no
reply and a second finalize leaves the closed state unchanged. -/
theorem c3_post_close_silence_witness :
    generate_reply_lt histDnc "ačiū".data oNeutral = .ok [] ∧
    finalize_thread_once histDnc [] oNeutral ⟨"closed".data, []⟩ =
      ⟨"closed".data, []⟩ :=
  ⟨c3_post_close_silence.1 histDnc "ačiū".data oNeutral (by decide) (by decide),
   c3_post_close_silence.2 histDnc [] oNeutral ⟨"closed".data, []⟩ rfl⟩

/-- Claim C3 counterexample: the debug command `!prompt` is answered even on a
closed thread, so not every post-close inbound message is silenced. -/
theorem c3_debug_breaks_silence :
    assistant_last_was_close histDnc = true ∧
    generate_reply_lt histDnc "!prompt".data oNeutral ≠ .ok [] := by
  constructor
  · decide
  · rw [generate_reply_debug histDnc "!prompt".data oNeutral (by decide),
      debug_reply_value]
    decide

/-! ## Claim C4 — language-model failure fallback -/

/-- Claim C4 (amended): only JSON-parse failures of the analyzer response are
swallowed (`analyze` degrades to the defaulted empty plan and the
deterministic flow continues to produce a reply); an exception raised by the
model client itself propagates out of the reply planner to its caller — no
static fallback question is returned on that path. -/
theorem c4_llm_failure_semantics :
    (∀ (h : List Msg) (text : Str) (o : Oracle),
      (stripWs text).isEmpty = false →
      is_debug_cmd (stripWs text) = false →
      assistant_last_was_close h = false →
      apply_close_rules (stripWs text) = none →
      rxTestCI robotRx (stripWs text) = false →
      o.an = .error () →
      generate_reply_lt h text o = .error ()) ∧
    (∀ (text : Str), analyze text (.ok none) = .ok (normalizePlan {} text)) ∧
    generate_reply_lt [] "sveiki".data oParseFail = .ok "Ačiū, supratau.".data := by
  refine ⟨?_, fun _ => rfl, by decide⟩
  intro h text o hne hdbg hclosed hcr hrob han
  unfold generate_reply_lt
  simp only [hne, hdbg, hclosed, hcr, hrob, han, Bool.false_eq_true, if_false,
    analyze]

/-- Claim C4 witness: the propagation conjunct applied to a fresh thread, the
text "sveiki" and an erroring model client. -/
theorem c4_llm_failure_semantics_witness :
    generate_reply_lt [] "sveiki".data oErr = .error () :=
  c4_llm_failure_semantics.1 [] "sveiki".data oErr (by decide) (by decide)
    (by decide) (by decide) (by decide) rfl

/-- Claim C4 counterexample: with an erroring model client the reply planner
raises instead of returning the claimed deterministic fallback question. -/
theorem c4_error_propagates_counterexample :
    generate_reply_lt [] "sveiki".data oErr = .error () ∧
    generate_reply_lt [] "sveiki".data oErr ≠
      .ok "Kiek metų patirties turite?".data := by
  exact ⟨by decide, by decide⟩

/-! ## Claim C5 — turn-local probe disambiguation -/

/-- Claim C5 (amended): after the future-interest probe, a short affirmative
reply that does not match the deterministic accept close-rule (e.g. "gal"),
and whose analyzed intent is neither an explicit accept nor a call request,
is interpreted as future interest: the reply is the future closing message
(its trailing period trimmed by polish on a thread that already used the
identity line) and its recovered close type is `future`, never `human`.
Plain affirmatives that the accept close-rule matches ("taip", "jo", "ok",
...) never reach the disambiguation code — see the counterexample. -/
theorem c5_future_probe_disambiguation (rp : RawPlan) (g : Except Unit Str)
    (h1 : ¬ ((normalizePlan rp "gal".data).intent = "accept".data))
    (h2 : ¬ ((normalizePlan rp "gal".data).intent = "call_request".data))
    (h3 : (normalizePlan rp "gal".data).trolling = false)
    (h4 : QUESTION_INTENTS.contains (normalizePlan rp "gal".data).intent = false)
    (h5 : ¬ ((normalizePlan rp "gal".data).intent = "identity_question".data)) :
    generate_reply_lt probeHist "gal".data ⟨.ok (some rp), g⟩ =
      .ok FUTURE_CLOSE_SENT ∧
    last_close_type_of FUTURE_CLOSE_SENT = some "future".data := by
  refine ⟨?_, by decide⟩
  have e1 : generate_reply_lt probeHist "gal".data ⟨.ok (some rp), g⟩ =
      reply_with_plan probeHist (stripWs "gal".data)
        (disambiguate (normalizePlan rp (stripWs "gal".data))
          (last_assistant_question_type probeHist) (stripWs "gal".data)) g := by
    rfl
  have hp : disambiguate (normalizePlan rp (stripWs "gal".data))
      (last_assistant_question_type probeHist) (stripWs "gal".data) =
      { normalizePlan rp "gal".data with
          future_interest := "yes".data, job_interest := "no".data } := by
    unfold disambiguate
    rw [if_pos (by decide)]
    rw [show stripWs "gal".data = "gal".data from rfl]
    rw [decide_eq_false h1, decide_eq_false h2]
    rw [if_pos (by decide)]
  rw [e1, hp]
  unfold reply_with_plan
  simp only [h3, h4]
  rw [if_neg (by decide)]
  rw [if_neg (by decide)]
  rw [if_neg (by decide)]
  rw [if_neg h5]
  rw [if_neg h2]
  have dny : (decide (("no".data : Str) = "yes".data)) = false := by decide
  simp only [dny, Bool.false_and, Bool.false_eq_true, if_false]
  rw [if_neg (by decide)]
  rw [if_pos trivial]
  rw [if_neg (by decide)]
  rw [if_pos (by decide)]
  have fin : close_and_return FUTURE_CLOSE probeHist
      (extract_opener_specialty probeHist) = FUTURE_CLOSE_SENT := by decide
  rw [fin]

/-- Claim C5 witness: the theorem applied with an analyzed intent of
`other`. -/
theorem c5_future_probe_disambiguation_witness :
    generate_reply_lt probeHist "gal".data ⟨.ok (some rpOther), .ok []⟩ =
      .ok FUTURE_CLOSE_SENT ∧
    last_close_type_of FUTURE_CLOSE_SENT = some "future".data :=
  c5_future_probe_disambiguation rpOther (.ok []) (by decide) (by decide)
    (by decide) (by decide) (by decide)

/-- Claim C5 counterexample: after the future-interest probe, the short
affirmative "taip" fires the deterministic accept close-rule before the
turn-local disambiguation ever runs, producing the human-interested close —
the probe answer IS treated as acceptance of the job. -/
theorem c5_taip_counterexample :
    last_assistant_question_type probeHist = some "future_probe".data ∧
    is_affirmative "taip".data = true ∧
    generate_reply_lt probeHist "taip".data oNeutral = .ok HUMAN_CLOSE_SENT ∧
    last_close_type_of HUMAN_CLOSE_SENT = some "human".data ∧
    HUMAN_CLOSE_SENT ≠ FUTURE_CLOSE_SENT := by
  refine ⟨by decide, by decide, by decide, by decide, by decide⟩

/-! ## Claim C6 — slot-order invariant -/

/-- Claim C6: on the free-generation path, if the draft (after the phone-only
belt filter) contains an availability question ("kada galėtumėte pradėti" /
"koks grafikas tinka") and years are known neither from the plan nor from the
history, the emitted reply is the years question instead — availability is
never asked before years are known. -/
theorem c6_slot_order_guard (h : List Msg) (text : Str) (rp : RawPlan)
    (g : Except Unit Str) (draft : Str)
    (hne : (stripWs text).isEmpty = false)
    (hdbg : is_debug_cmd (stripWs text) = false)
    (hclosed : assistant_last_was_close h = false)
    (hcr : apply_close_rules (stripWs text) = none)
    (hrob : rxTestCI robotRx (stripWs text) = false)
    (hlq : last_assistant_question_type h = none)
    (htroll : (normalizePlan rp (stripWs text)).trolling = false)
    (hq : QUESTION_INTENTS.contains (normalizePlan rp (stripWs text)).intent = false)
    (hlq2 : looks_like_question (stripWs text) = false)
    (hid : ¬ ((normalizePlan rp (stripWs text)).intent = "identity_question".data))
    (hcall : ¬ ((normalizePlan rp (stripWs text)).intent = "call_request".data))
    (hji1 : ¬ ((normalizePlan rp (stripWs text)).job_interest = "yes".data))
    (hji2 : ¬ ((normalizePlan rp (stripWs text)).job_interest = "no".data))
    (hg : g = .ok draft)
    (hyearsH : (inferred_slots h).years = none)
    (hyearsP : (normalizePlan rp (stripWs text)).slots_years = none)
    (havail : contains_avail_q
      (strip_phone_only (normalizePlan rp (stripWs text)) draft) = true)
    (hspec : extract_opener_specialty h = none) :
    generate_reply_lt h text ⟨.ok (some rp), g⟩ = .ok (years_question none) ∧
    contains_avail_q (years_question none) = false := by
  refine ⟨?_, by decide⟩
  unfold generate_reply_lt
  simp only [hne, hdbg, hclosed, hcr, hrob, Bool.false_eq_true, if_false, analyze]
  rw [hlq, disambiguate_none]
  unfold reply_with_plan
  simp only [htroll, hq, hlq2, hyearsH, hyearsP, hspec, Bool.false_or,
    Bool.or_false, Bool.and_false, Bool.false_eq_true, if_false,
    Option.isSome_none]
  rw [if_neg hid]
  rw [if_neg hcall]
  simp only [decide_eq_false hji1, Bool.false_and, Bool.false_eq_true, if_false]
  rw [if_neg hji1, if_neg hji2, hg]
  simp only [havail, Bool.not_false, Bool.and_self, if_true]
  exact congrArg Except.ok (polish_years_default h)

/-- Claim C6 witness: a neutral turn whose draft is the availability question
on a thread with no known years is rewritten into the years question. -/
theorem c6_slot_order_guard_witness :
    generate_reply_lt [] "hm".data oAvailDraft = .ok (years_question none) ∧
    contains_avail_q (years_question none) = false :=
  c6_slot_order_guard [] "hm".data rpNeutral (.ok "Kada galėtumėte pradėti?".data)
    "Kada galėtumėte pradėti?".data (by decide) (by decide) (by decide)
    (by decide) (by decide) (by decide) (by decide) (by decide) (by decide)
    (by decide) (by decide) (by decide) (by decide) rfl (by decide) (by decide)
    (by decide) (by decide)

/-! ## Claim C7 — idempotent close -/

/-- Claim C7: finalizing an open thread writes exactly one KPI row and
performs the single open-to-closed transition; a second invocation observes
`status = "closed"` and is a no-op (same state, no second KPI row). -/
theorem c7_idempotent_close (h : List Msg) (lu : Str) (o : Oracle)
    (st : FinState) (hopen : ¬ (st.status = "closed".data)) :
    (finalize_thread_once h lu o st).status = "closed".data ∧
    (finalize_thread_once h lu o st).kpiRows =
      st.kpiRows ++ [summarize_thread_kpis h lu o] ∧
    finalize_thread_once h lu o (finalize_thread_once h lu o st) =
      finalize_thread_once h lu o st := by
  unfold finalize_thread_once
  rw [if_neg hopen]
  exact ⟨rfl, rfl, rfl⟩

/-- Claim C7 witness: the theorem applied to a fresh open thread. -/
theorem c7_idempotent_close_witness :
    (finalize_thread_once histDnc [] oNeutral ⟨"open".data, []⟩).status =
      "closed".data ∧
    (finalize_thread_once histDnc [] oNeutral ⟨"open".data, []⟩).kpiRows =
      [] ++ [summarize_thread_kpis histDnc [] oNeutral] ∧
    finalize_thread_once histDnc [] oNeutral
        (finalize_thread_once histDnc [] oNeutral ⟨"open".data, []⟩) =
      finalize_thread_once histDnc [] oNeutral ⟨"open".data, []⟩ :=
  c7_idempotent_close histDnc [] oNeutral ⟨"open".data, []⟩ (by decide)

/-! ## Claim C8 — length invariant -/

/-- Claim C8 (amended): every post-processed outbound message is at most 160
characters (at most 158 when truncation fires), and a draft longer than 160
characters is truncated by a plain 157-character cut, right-stripped, with
the ellipsis character appended — a raw character cut that can fall mid-word
even when a word boundary is available (see the counterexample). -/
theorem c8_length_invariant :
    (∀ s : Str, (final_sms s).length ≤ 160) ∧
    (∀ s : Str, 160 < (stripWs (collapseWs s)).length →
      final_sms s = rstripWs ((stripWs (collapseWs s)).take 157) ++ ['…']) := by
  constructor
  · intro s
    unfold final_sms
    by_cases hc : (stripWs (collapseWs s)).length > 160
    · rw [if_pos hc]
      have h1 := rstripWs_length_le ((stripWs (collapseWs s)).take 157)
      have h2 : ((stripWs (collapseWs s)).take 157).length ≤ 157 := by
        simp [List.length_take]
      simp only [List.length_append, List.length_cons, List.length_nil]
      omega
    · rw [if_neg hc]
      omega
  · intro s hlen
    unfold final_sms
    rw [if_pos hlen]

/-- The 175-character draft used to exhibit the mid-word truncation. -/
def c8long : Str := joinSpace (List.replicate 16 "abcdefghij".data)

/-- Claim C8 witness: the theorem applied to the long draft. -/
theorem c8_length_invariant_witness :
    (final_sms c8long).length ≤ 160 ∧
    final_sms c8long = rstripWs ((stripWs (collapseWs c8long)).take 157) ++ ['…'] :=
  ⟨c8_length_invariant.1 c8long, c8_length_invariant.2 c8long (by decide)⟩

/-- Claim C8 counterexample: truncating sixteen ten-letter words cuts inside
the fifteenth word ("abc…") although a word boundary was available four
characters earlier — truncation is not word-aware. -/
theorem c8_midword_truncation :
    final_sms c8long =
      ("abcdefghij abcdefghij abcdefghij abcdefghij abcdefghij abcdefghij " ++
       "abcdefghij abcdefghij abcdefghij abcdefghij abcdefghij abcdefghij " ++
       "abcdefghij abcdefghij abc…").data ∧
    isWordChar ((final_sms c8long).getD 156 ' ') = true ∧
    isWordChar ((stripWs (collapseWs c8long)).getD 157 ' ') = true ∧
    (stripWs (collapseWs c8long)).getD 153 ' ' = ' ' := by
  refine ⟨by decide, by decide, by decide, by decide⟩

/-! ## Claim C9 — years extraction -/

/-- Claim C9: the slot extractor maps any text mentioning months, weeks or
days of experience to years = 0; it parses explicit numeric-year mentions
("7 metai" gives 7); every successfully parsed value lies in [0, 70] and
out-of-range mentions ("75 metai") yield null; and the analyzer's clamp
nullifies any model-supplied years value outside [0, 70]. -/
theorem c9_years_extraction :
    (∀ t : Str,
      (rxTest monthsRx (lowerStr t) || rxTest weeksRx (lowerStr t) ||
       rxTest daysRx (lowerStr t)) = true →
      parse_experience_years t = some 0) ∧
    (∀ (t : Str) (y : Int), parse_experience_years t = some y →
      0 ≤ y ∧ y ≤ 70) ∧
    parse_experience_years "7 metai".data = some 7 ∧
    parse_experience_years "75 metai".data = none ∧
    (∀ (rp : RawPlan) (t : Str) (y : Int), rp.slots_years = some y →
      y < 0 ∨ 70 < y → (normalizePlan rp t).slots_years = none) := by
  refine ⟨?_, ?_, by decide, by decide, ?_⟩
  · intro t hc
    unfold parse_experience_years
    rw [hc]
    rfl
  · intro t y hp
    unfold parse_experience_years at hp
    split_ifs at hp with h1
    · injection hp with hy
      omega
    · cases hf : findYears none (lowerStr t) with
      | none => rw [hf] at hp; exact absurd hp (by simp)
      | some n =>
        rw [hf] at hp
        dsimp only [] at hp
        split_ifs at hp with h2
        injection hp with hy
        simp only [Bool.or_eq_true, decide_eq_true_eq, not_or, not_lt] at h2
        unfold YEAR_MAX at h2
        omega
  · intro rp t y hy hout
    unfold normalizePlan
    simp only [hy]
    have hcond : (decide (y < 0) || decide (y > YEAR_MAX)) = true := by
      rcases hout with hout | hout <;> simp [hout, YEAR_MAX]
    rw [hcond]
    rfl

/-- Claim C9 witness: months normalize to 0; "7 metai" parses in range; a
model-supplied 999 is clamped to null. -/
theorem c9_years_extraction_witness :
    parse_experience_years "3 mėn. dirbau".data = some 0 ∧
    (0 ≤ (7 : Int) ∧ (7 : Int) ≤ 70) ∧
    (normalizePlan { slots_years := some 999 } []).slots_years = none :=
  ⟨c9_years_extraction.1 "3 mėn. dirbau".data (by decide),
   c9_years_extraction.2.1 "7 metai".data 7 (by decide),
   c9_years_extraction.2.2.2.2 { slots_years := some 999 } [] 999 rfl
     (by decide)⟩

/-! ## Claim C10 — debug backdoor at the public SMS interface -/

/-- Claim C10: whatever the thread state, an inbound text that after stripping
leading backslashes and lowercasing equals `!prompt`, `!pf` or `##prompt##`
makes the reply generator return the 12-hex-character system-prompt hash
followed by the model name instead of a conversational reply. -/
theorem c10_debug_backdoor :
    (∀ (h : List Msg) (text : Str) (o : Oracle),
      is_debug_cmd (stripWs text) = true →
      generate_reply_lt h text o = .ok debug_reply) ∧
    debug_reply = PROMPT_SHA ++ [' '] ++ MODEL ∧
    PROMPT_SHA.length = 12 ∧
    PROMPT_SHA.all (fun c => isDigitChar c || ('a' ≤ c && c ≤ 'f')) = true := by
  refine ⟨generate_reply_debug, ?_, ?_, ?_⟩
  · unfold debug_reply MODEL
    rw [prompt_sha_value]
    decide
  · rw [prompt_sha_value]
    decide
  · rw [prompt_sha_value]
    decide

/-- Claim C10 witness: `!prompt` on a closed thread (the strongest state)
returns the fingerprint reply. -/
theorem c10_debug_backdoor_witness :
    generate_reply_lt histDnc "!prompt".data oNeutral = .ok debug_reply :=
  c10_debug_backdoor.1 histDnc "!prompt".data oNeutral (by decide)
